import Mathlib

/-!
Verification of `vite-plugin-build-monitoring` (src/index.ts) against its
natural-language specification.

Shallow embedding conventions:
* JavaScript numbers are modelled as exact rationals (`ℚ`); byte counts and
  megabyte values are rationals, dependency counts are naturals.
* `undefined`-able options are `Option`s; JavaScript truthiness of a numeric
  option (`undefined` and `0` are falsy) is `truthyQ` / `truthyN`.
* Timestamps (`new Date()`, `Date.now()`) are abstract naturals, assumed
  monotone along a run.
* Console logging / colorization is out of scope; the observable behaviour of
  each check is the value pushed on the broadcast `subject` (an
  info/warning/error classification carrying a structured message that records
  exactly the numbers interpolated into the source's template strings).
* `process.exit` is modelled as an explicit exit code in the result of the
  operation that invokes it.
-/

namespace BuildMonitoring

/-- JavaScript truthiness of a possibly-`undefined` numeric (rational) option:
`undefined` and `0` are falsy, every other number is truthy. -/
def truthyQ : Option ℚ → Bool
  | none => false
  | some q => q != 0

/-- JavaScript truthiness of a possibly-`undefined` integer option. -/
def truthyN : Option ℕ → Bool
  | none => false
  | some n => n != 0

/-- Model of `Number(x.toFixed(2))`: rounding to two decimal places, modelled exactly
over the rationals (the source's IEEE doubles are abstracted to exact
rationals; for nonnegative inputs `round` is round-half-up, matching
`toFixed`). -/
def toFixed2 (x : ℚ) : ℚ := (round (x * 100) : ℤ) / 100

/-- Function `toMB` from index.ts: convert bytes to MB (not MiB), fixed to 2 decimals —
`Number((bytes / 1000 / 1000).toFixed(2))`. -/
def toMB (bytes : ℚ) : ℚ := toFixed2 (bytes / 1000 / 1000)

/-- Structured messages: one constructor per `*_TXT` template of index.ts,
carrying exactly the numbers the template interpolates. -/
inductive Msg
  | warningAboveError
  | memoryConsumption (maxMemoryConsumption : ℚ) (date : ℕ)
  | warningMemoryConsumption (memUsage : ℚ) (memoryWarningMaxSize : ℚ) (date : ℕ)
  | errorMemoryConsumption (memUsage : ℚ) (memoryErrorMaxSize : ℚ) (date : ℕ)
  | errorNodeModuleSize (nodeModuleMB : ℚ) (nodeModulesMaxSize : ℚ)
  | infoNodeModuleSize (nodeModuleMB : ℚ) (nodeModulesMaxSize : Option ℚ)
  | errorNodeModuleNb (nbOfNodeModulesDeps : ℕ) (nbNodeModulesMax : ℕ)
  | infoNodeModuleNb (nbOfNodeModulesDeps : ℕ) (nbNodeModulesMax : ℕ)
  | errorBundleSize (bundleMB : ℚ) (bundleMaxSize : ℚ)
  | infoBundleSize (bundleMB : ℚ) (bundleMaxSize : Option ℚ)
deriving DecidableEq

/-- Template `ERROR_NODE_MODULE_NB_TXT` from index.ts, rendered as the actual string
(dependency counts are integers, so the rendering is exact). -/
def ERROR_NODE_MODULE_NB_TXT (nbOfNodeModulesDeps NB_NODE_MODULES_MAX : ℕ) : String :=
  "\nToo many node modules installed, " ++ toString nbOfNodeModulesDeps ++ "/" ++
    toString NB_NODE_MODULES_MAX ++ " did you add some ?\n"

/-- The `checksObservables` shape pushed on the broadcast `subject`: exactly one
of `error` / `warning` / `info` is populated per `subject.next` call. -/
inductive ChecksObservable
  | error (msg : Msg)
  | warning (msg : Msg)
  | info (msg : Msg)
deriving DecidableEq

/-- Whether an observable is an `error` classification. -/
def ChecksObservable.isError : ChecksObservable → Bool
  | .error _ => true
  | _ => false

/-- Function `checkNodeModulesSize` from index.ts:
`if (NODE_MODULES_MAX_SIZE && nodeModuleMB > NODE_MODULES_MAX_SIZE)` emit the
error text, else emit the info text. -/
def checkNodeModulesSize (NODE_MODULES_MAX_SIZE : Option ℚ) (nodeModuleMB : ℚ) :
    ChecksObservable :=
  if truthyQ NODE_MODULES_MAX_SIZE ∧ nodeModuleMB > NODE_MODULES_MAX_SIZE.getD 0 then
    .error (.errorNodeModuleSize nodeModuleMB (NODE_MODULES_MAX_SIZE.getD 0))
  else
    .info (.infoNodeModuleSize nodeModuleMB NODE_MODULES_MAX_SIZE)

/-- Function `checkBundleSizes` from index.ts:
`if (BUNDLE_MAX_SIZE && bundleMB > BUNDLE_MAX_SIZE)` emit the error text, else
emit the info text. -/
def checkBundleSizes (BUNDLE_MAX_SIZE : Option ℚ) (bundleMB : ℚ) : ChecksObservable :=
  if truthyQ BUNDLE_MAX_SIZE ∧ bundleMB > BUNDLE_MAX_SIZE.getD 0 then
    .error (.errorBundleSize bundleMB (BUNDLE_MAX_SIZE.getD 0))
  else
    .info (.infoBundleSize bundleMB BUNDLE_MAX_SIZE)

/-- The mutable record returned by `checkMemoryUsage` (the `interval` handle is
not part of the data model; it is represented by the trace events below). -/
structure MonitorInfos where
  tmpMaxMemoryConsumption : ℚ
  dateMaxMemoryConsumption : ℕ
deriving DecidableEq

/-- Everything one firing of the `setInterval` callback of `checkMemoryUsage`
does: the fatal emission (if any), the call into the debounced
`warningMemoryLimit` (if any), the `process.exit` code (if any), and the
updated `infos` record. -/
structure TickResult where
  errorEvent : Option Msg
  warnCall : Option (ℚ × ℚ)
  exitCode : Option ℕ
  infos : MonitorInfos
deriving DecidableEq

/-- One firing of the `setInterval` callback installed by `checkMemoryUsage`
(index.ts lines 446-469): sample rss, convert to MB; if above
`MEMORY_ERROR_MAX_SIZE` emit the fatal text and `process.exit(1)` (nothing
after the exit runs); otherwise maybe call the debounced warning, then ratchet
the running maximum. `now` is the tick's `new Date()`. -/
def checkMemoryUsageTick (MEMORY_WARNING_MAX_SIZE MEMORY_ERROR_MAX_SIZE : ℚ)
    (infos : MonitorInfos) (rssBytes : ℚ) (now : ℕ) : TickResult :=
  let memUsage := toMB rssBytes
  if memUsage > MEMORY_ERROR_MAX_SIZE then
    { errorEvent := some (.errorMemoryConsumption memUsage MEMORY_ERROR_MAX_SIZE now)
      warnCall := none
      exitCode := some 1
      infos := infos }
  else
    { errorEvent := none
      warnCall :=
        if memUsage > MEMORY_WARNING_MAX_SIZE then some (memUsage, MEMORY_WARNING_MAX_SIZE)
        else none
      exitCode := none
      infos :=
        if memUsage > infos.tmpMaxMemoryConsumption then ⟨memUsage, now⟩ else infos }

/-- The `infos` record freshly initialised by `checkMemoryUsage`:
`tmpMaxMemoryConsumption: 0, dateMaxMemoryConsumption: new Date()`. -/
def initialInfos (now : ℕ) : MonitorInfos := ⟨0, now⟩

/-- Run a sequence of interval ticks, threading the `infos` record; each list
element is `(new Date(), rss bytes)`. A tick that calls `process.exit` freezes
the state (the process is gone, no further tick runs). -/
def runTicks (W E : ℚ) (infos : MonitorInfos) : List (ℕ × ℚ) → MonitorInfos
  | [] => infos
  | (now, rss) :: rest =>
    let r := checkMemoryUsageTick W E infos rss now
    match r.exitCode with
    | some _ => r.infos
    | none => runTicks W E r.infos rest

/-- The dependency manifest (`package.json`): the two mappings are modelled by
their key lists (`Object.keys`). A missing mapping is `none` (the source
defaults it with `?? {}`). -/
structure PackageJson where
  dependencies : Option (List String)
  devDependencies : Option (List String)
deriving DecidableEq

/-- Result of `checkNbOfNodeModulesDeps`: either the early `return` taken
before the manifest is read, or a run that emitted one outcome. -/
inductive NbDepsRun
  | skipped
  | ran (outcome : ChecksObservable)
deriving DecidableEq

/-- Function `checkNbOfNodeModulesDeps` from index.ts: `if (!NB_NODE_MODULES_MAX) return;`
then count `Object.keys(dependencies ?? {}).length +
Object.keys(devDependencies ?? {}).length` and compare. -/
def checkNbOfNodeModulesDeps (NB_NODE_MODULES_MAX : Option ℕ) (packageJson : PackageJson) :
    NbDepsRun :=
  if ¬ truthyN NB_NODE_MODULES_MAX then .skipped
  else
    let nbMax := NB_NODE_MODULES_MAX.getD 0
    let nbOfNodeModulesDeps :=
      (packageJson.dependencies.getD []).length + (packageJson.devDependencies.getD []).length
    if nbOfNodeModulesDeps > nbMax then
      .ran (.error (.errorNodeModuleNb nbOfNodeModulesDeps nbMax))
    else
      .ran (.info (.infoNodeModuleNb nbOfNodeModulesDeps nbMax))

/-- The options record accepted by `monitoring` (all fields optional). -/
structure MonitoringOptions where
  MEMORY_WARNING_MAX_SIZE : Option ℚ := none
  MEMORY_ERROR_MAX_SIZE : Option ℚ := none
  BUNDLE_ROOT_FOLDER_PATH : Option String := none
  BUNDLE_MAX_SIZE : Option ℚ := none
  NODE_MODULES_MAX_SIZE : Option ℚ := none
  NB_NODE_MODULES_MAX : Option ℕ := none
  INTERVAL_CHECK_MEMORY : Option ℕ := none
  LOG : Option Bool := none

/-- Observable steps of the synchronous body of `monitoring` (plugin setup). -/
inductive StartEvent
  | emit (e : ChecksObservable)
  | startMemoryMonitor (warningMax errorMax : ℚ) (intervalMs : ℕ)
  | runDepsCheck (r : NbDepsRun)
  | processExit (code : ℕ)
deriving DecidableEq

/-- The synchronous body of `monitoring` (index.ts lines 305-331): apply option
defaults; if `MEMORY_WARNING_MAX_SIZE > MEMORY_ERROR_MAX_SIZE` emit the
misconfiguration error (and nothing else: no return, no exit); then start
`checkMemoryUsage` and run `checkNbOfNodeModulesDeps`. -/
def monitoring (options : MonitoringOptions) (packageJson : PackageJson) : List StartEvent :=
  let MEMORY_WARNING_MAX_SIZE := options.MEMORY_WARNING_MAX_SIZE.getD 2950
  let MEMORY_ERROR_MAX_SIZE := options.MEMORY_ERROR_MAX_SIZE.getD 4500
  let INTERVAL_CHECK_MEMORY := options.INTERVAL_CHECK_MEMORY.getD 350
  (if MEMORY_WARNING_MAX_SIZE > MEMORY_ERROR_MAX_SIZE then
    [StartEvent.emit (.error .warningAboveError)]
  else []) ++
  [StartEvent.startMemoryMonitor MEMORY_WARNING_MAX_SIZE MEMORY_ERROR_MAX_SIZE
    INTERVAL_CHECK_MEMORY,
   StartEvent.runDepsCheck (checkNbOfNodeModulesDeps options.NB_NODE_MODULES_MAX packageJson)]

/-- Observable steps of the `finalCallback` completion sequence. -/
inductive FinalEvent
  | clearMonitorInterval
  | emit (e : ChecksObservable)
  | sizeProbe (path : String)
deriving DecidableEq

/-- Function `finalCallback` from index.ts (lines 333-352), as its ordered sequence of
observable steps: clear the interval first, then read and report the running
maximum, then issue both size probes (awaited together), then the two size
checks. `bundleBytes` / `nodeModulesBytes` are the probes' results. -/
def finalCallback (BUNDLE_ROOT_FOLDER_PATH : String)
    (BUNDLE_MAX_SIZE NODE_MODULES_MAX_SIZE : Option ℚ) (infos : MonitorInfos)
    (bundleBytes nodeModulesBytes : ℚ) : List FinalEvent :=
  [FinalEvent.clearMonitorInterval,
   FinalEvent.emit
     (.info (.memoryConsumption infos.tmpMaxMemoryConsumption infos.dateMaxMemoryConsumption)),
   FinalEvent.sizeProbe BUNDLE_ROOT_FOLDER_PATH,
   FinalEvent.sizeProbe "./node_modules",
   FinalEvent.emit (checkNodeModulesSize NODE_MODULES_MAX_SIZE (toMB nodeModulesBytes)),
   FinalEvent.emit (checkBundleSizes BUNDLE_MAX_SIZE (toMB bundleBytes))]

/-- The wait of the `debounce` wrapping `warningMemoryLimit` (ms). -/
def warningMemoryLimitWait : ℕ := 2500

/-- State of the lodash `debounce` closure wrapping `warningMemoryLimit`
(options `leading: true, trailing: true`, no `maxWait`): the pending
arguments, the time of the last call of the wrapper, the time of the last
invocation of the wrapped function, and the scheduled firing time of the
pending `timerExpired` timeout (`none` when no timer is pending). Times are
monotone naturals, so lodash's system-clock-went-backwards branch cannot
fire and is omitted. -/
structure DebounceState where
  lastCallTime : Option ℕ
  lastInvokeTime : ℕ
  lastArgs : Option (ℚ × ℚ)
  timerTime : Option ℕ
deriving DecidableEq

/-- The debounce closure state before any call. -/
def debounceInit : DebounceState := ⟨none, 0, none, none⟩

/-- lodash `shouldInvoke`: the first ever call invokes, otherwise invoke when
at least `wait` has elapsed since the last call (no `maxWait`). -/
def shouldInvoke (wait : ℕ) (s : DebounceState) (time : ℕ) : Bool :=
  match s.lastCallTime with
  | none => true
  | some lastCall => wait ≤ time - lastCall

/-- One call of the debounced wrapper (`warningMemoryLimit(memUsage, W)`) at
`time`: record the arguments and call time; if invoking and no timer is
pending, take the `leadingEdge` (start the timer, and — `leading: true` —
invoke immediately, which consumes the pending arguments); otherwise just
ensure a timer is pending. Returns the new state and the invocations
(time, arguments) performed. -/
def debouncedCall (wait : ℕ) (s : DebounceState) (time : ℕ) (args : ℚ × ℚ) :
    DebounceState × List (ℕ × (ℚ × ℚ)) :=
  let isInvoking := shouldInvoke wait s time
  let s1 : DebounceState :=
    { s with lastArgs := some args, lastCallTime := some time }
  if isInvoking ∧ s1.timerTime = none then
    ({ s1 with lastInvokeTime := time, lastArgs := none, timerTime := some (time + wait) },
     [(time, args)])
  else if s1.timerTime = none then
    ({ s1 with timerTime := some (time + wait) }, [])
  else
    (s1, [])

/-- lodash `timerExpired`, firing at the scheduled `timerTime`: if enough time
has passed since the last call, take the `trailingEdge` (clear the timer and —
`trailing: true` — invoke with the pending arguments, if any); otherwise
reschedule for `remainingWait`, i.e. to fire at `lastCallTime + wait`. -/
def timerExpired (wait : ℕ) (s : DebounceState) : DebounceState × List (ℕ × (ℚ × ℚ)) :=
  match s.timerTime with
  | none => (s, [])
  | some time =>
    if shouldInvoke wait s time then
      match s.lastArgs with
      | some args =>
        ({ s with timerTime := none, lastArgs := none, lastInvokeTime := time }, [(time, args)])
      | none => ({ s with timerTime := none }, [])
    else
      ({ s with timerTime := some (s.lastCallTime.getD 0 + wait) }, [])

/-- Fire the pending timer while its scheduled time is at or before `t`.
Two firings always suffice between consecutive events: a firing either takes
the trailing edge (clearing the timer) or reschedules to exactly
`lastCallTime + wait`, where the next firing is guaranteed to take the
trailing edge (no call happens in between). -/
def fireDue (wait : ℕ) (s : DebounceState) (t : ℕ) : DebounceState × List (ℕ × (ℚ × ℚ)) :=
  match s.timerTime with
  | none => (s, [])
  | some T =>
    if T ≤ t then
      let r1 := timerExpired wait s
      match r1.1.timerTime with
      | none => r1
      | some T1 =>
        if T1 ≤ t then
          let r2 := timerExpired wait r1.1
          (r2.1, r1.2 ++ r2.2)
        else r1
    else (s, [])

/-- After the last call of a run: let the pending timer fire until quiescence
(as for `fireDue`, two firings always suffice). -/
def flushTimers (wait : ℕ) (s : DebounceState) : DebounceState × List (ℕ × (ℚ × ℚ)) :=
  match s.timerTime with
  | none => (s, [])
  | some _ =>
    let r1 := timerExpired wait s
    match r1.1.timerTime with
    | none => r1
    | some _ =>
      let r2 := timerExpired wait r1.1
      (r2.1, r1.2 ++ r2.2)

/-- Process a time-ordered list of calls of the debounced wrapper: before each
call, fire any timer that became due; then perform the call. -/
def runDebounce (wait : ℕ) (s : DebounceState) :
    List (ℕ × (ℚ × ℚ)) → DebounceState × List (ℕ × (ℚ × ℚ))
  | [] => (s, [])
  | (t, a) :: rest =>
    let r1 := fireDue wait s t
    let r2 := debouncedCall wait r1.1 t a
    let r3 := runDebounce wait r2.1 rest
    (r3.1, r1.2 ++ r2.2 ++ r3.2)

/-- The invocations of the wrapped warning function produced by a run of calls
starting from the fresh closure, including the timers that fire after the last
call. Each invocation `(t, (memUsage, W))` is the notification
`WARNING_MEMORY_CONSUMPTION_TXT(memUsage, W)` emitted at time `t`. -/
def runBurst (wait : ℕ) (calls : List (ℕ × (ℚ × ℚ))) : List (ℕ × (ℚ × ℚ)) :=
  let r := runDebounce wait debounceInit calls
  let f := flushTimers wait r.1
  r.2 ++ f.2

/-- Times of a timestamped list form a burst continuing from time `tk`:
strictly increasing, with consecutive gaps shorter than `w`. -/
def BurstTimes (w : ℕ) : ℕ → List (ℕ × α) → Prop
  | _, [] => True
  | tk, p :: rest => tk < p.1 ∧ p.1 < tk + w ∧ BurstTimes w p.1 rest

/-- Invariant of the debounce closure in the middle of a burst that started at
`t0`: the leading invocation happened at `t0`, the last call was at `tk` with
pending arguments `ak`, and a timer is pending for some time in
`(tk, tk + w]`. -/
def BurstInv (w t0 tk : ℕ) (ak : Option (ℚ × ℚ)) (s : DebounceState) : Prop :=
  s.lastCallTime = some tk ∧ s.lastInvokeTime = t0 ∧ s.lastArgs = ak ∧
  ∃ T, s.timerTime = some T ∧ tk < T ∧ T ≤ tk + w

/-- Evaluation: `toMB 20000 = 0.02`. -/
theorem toMB_20000 : toMB 20000 = 2 / 100 := by
  norm_num [toMB, toFixed2, round_eq]

/-- Evaluation: `toMB 12345678 = 12.35`. -/
theorem toMB_12345678 : toMB 12345678 = 1235 / 100 := by
  norm_num [toMB, toFixed2, round_eq]

/-- Evaluation of `toMB` at whole numbers of MB. -/
theorem toMB_mb (n : ℕ) : toMB (n * 1000000) = n := by
  simp [toMB, toFixed2]
  rw [show ((n : ℚ) * 1000000 / 1000 / 1000 * 100) = (n * 100 : ℤ) by push_cast; ring]
  rw [round_intCast]
  push_cast
  ring

/-- C5: byte-to-MB conversion. `toMB 20000 = 0.02`, `toMB 12345678 = 12.35`;
for every non-negative byte count `b`, `toMB b` equals `b / 1000000` rounded to
two decimal places, and is `≥ 0`. -/
theorem C5_toMB (b : ℕ) :
    toMB 20000 = 2 / 100 ∧ toMB 12345678 = 1235 / 100 ∧
    toMB b = (round ((b : ℚ) / 1000000 * 100) : ℤ) / 100 ∧ 0 ≤ toMB b := by
  refine ⟨toMB_20000, toMB_12345678, ?_, ?_⟩
  · unfold toMB toFixed2
    rw [show ((b : ℚ) / 1000000 * 100) = ((b : ℚ) / 1000 / 1000 * 100) by ring]
  · unfold toMB toFixed2
    rw [round_eq]
    have h : (0 : ℤ) ≤ ⌊(b : ℚ) / 1000 / 1000 * 100 + 1 / 2⌋ :=
      Int.floor_nonneg.mpr (by positivity)
    have h2 : (0 : ℚ) ≤ (⌊(b : ℚ) / 1000 / 1000 * 100 + 1 / 2⌋ : ℤ) := by exact_mod_cast h
    exact div_nonneg h2 (by norm_num)

/-- C1 counterexample: a limit configured as `0` is a defined limit, and the
measured value `5` exceeds it, yet both size checks produce the informational
outcome, not the error the claim requires (JavaScript truthiness treats the
configured `0` like an absent limit). -/
theorem C1_counterexample :
    (5 : ℚ) > 0 ∧
    checkBundleSizes (some 0) 5 = .info (.infoBundleSize 5 (some 0)) ∧
    (checkBundleSizes (some 0) 5).isError = false ∧
    checkNodeModulesSize (some 0) 5 = .info (.infoNodeModuleSize 5 (some 0)) ∧
    (checkNodeModulesSize (some 0) 5).isError = false := by
  norm_num [checkBundleSizes, checkNodeModulesSize, truthyQ, ChecksObservable.isError]

/-- C1 (amended): if the limit is unset the outcome is informational for every
measured value; for every defined NONZERO limit, measured > limit gives the
error outcome carrying both the measured value and the limit, and measured ≤
limit gives the informational outcome; identically for `checkBundleSizes` and
`checkNodeModulesSize` (a configured limit of `0` is falsy and behaves as
unset, see the counterexample). -/
theorem C1_thresholdCheck (limit m : ℚ) :
    (checkBundleSizes none m = .info (.infoBundleSize m none) ∧
     checkNodeModulesSize none m = .info (.infoNodeModuleSize m none)) ∧
    (limit ≠ 0 → m > limit →
      checkBundleSizes (some limit) m = .error (.errorBundleSize m limit) ∧
      checkNodeModulesSize (some limit) m = .error (.errorNodeModuleSize m limit)) ∧
    (m ≤ limit →
      checkBundleSizes (some limit) m = .info (.infoBundleSize m (some limit)) ∧
      checkNodeModulesSize (some limit) m = .info (.infoNodeModuleSize m (some limit))) := by
  refine ⟨⟨?_, ?_⟩, fun h hm => ⟨?_, ?_⟩, fun hle => ⟨?_, ?_⟩⟩
  · simp [checkBundleSizes, truthyQ]
  · simp [checkNodeModulesSize, truthyQ]
  · unfold checkBundleSizes
    rw [if_pos ⟨by simp [truthyQ, h], by simpa using hm⟩]
    rfl
  · unfold checkNodeModulesSize
    rw [if_pos ⟨by simp [truthyQ, h], by simpa using hm⟩]
    rfl
  · unfold checkBundleSizes
    rw [if_neg]
    rintro ⟨-, hgt⟩
    exact absurd hgt (not_lt.mpr (by simpa using hle))
  · unfold checkNodeModulesSize
    rw [if_neg]
    rintro ⟨-, hgt⟩
    exact absurd hgt (not_lt.mpr (by simpa using hle))

/-- Witness for C1: the spec's own scenarios, 12 MB against limit 10 and 1000 MB
against limit 900 give errors; 9 MB against limit 10 is informational. -/
theorem C1_thresholdCheck_witness :
    checkBundleSizes (some 10) 12 = .error (.errorBundleSize 12 10) ∧
    checkNodeModulesSize (some 900) 1000 = .error (.errorNodeModuleSize 1000 900) ∧
    checkBundleSizes (some 10) 9 = .info (.infoBundleSize 9 (some 10)) :=
  ⟨((C1_thresholdCheck 10 12).2.1 (by norm_num) (by norm_num)).1,
   ((C1_thresholdCheck 900 1000).2.1 (by norm_num) (by norm_num)).2,
   ((C1_thresholdCheck 10 9).2.2 (by norm_num)).1⟩

/-- C9: a limit configured as `0` behaves as if no limit were set: both size
checks produce the informational outcome for every measured value (never an
error), and the dependency-count check returns immediately — it is `skipped`,
emits no outcome, and its result does not depend on the manifest at all. -/
theorem C9_zero_limit (m : ℚ) (pkg pkg2 : PackageJson) :
    checkBundleSizes (some 0) m = .info (.infoBundleSize m (some 0)) ∧
    (checkBundleSizes (some 0) m).isError = false ∧
    checkNodeModulesSize (some 0) m = .info (.infoNodeModuleSize m (some 0)) ∧
    (checkNodeModulesSize (some 0) m).isError = false ∧
    checkNbOfNodeModulesDeps (some 0) pkg = .skipped ∧
    checkNbOfNodeModulesDeps (some 0) pkg = checkNbOfNodeModulesDeps (some 0) pkg2 := by
  simp [checkBundleSizes, checkNodeModulesSize, checkNbOfNodeModulesDeps, truthyQ, truthyN,
    ChecksObservable.isError]

/-- C7: the counted number of dependencies is the number of runtime-dependency
keys plus the number of development-dependency keys; with a manifest of 6
runtime and 5 development entries and a configured maximum of 10, the outcome
is the error carrying 11 and 10, whose rendered message states 11/10. -/
theorem C7_nb_deps :
    (∀ (pkg : PackageJson) (nbMax : ℕ), nbMax ≠ 0 →
      checkNbOfNodeModulesDeps (some nbMax) pkg =
        (if (pkg.dependencies.getD []).length + (pkg.devDependencies.getD []).length > nbMax then
          .ran (.error (.errorNodeModuleNb
            ((pkg.dependencies.getD []).length + (pkg.devDependencies.getD []).length) nbMax))
        else
          .ran (.info (.infoNodeModuleNb
            ((pkg.dependencies.getD []).length + (pkg.devDependencies.getD []).length) nbMax)))) ∧
    checkNbOfNodeModulesDeps (some 10)
      ⟨some ["a", "b", "c", "d", "e", "f"], some ["g", "h", "i", "j", "k"]⟩ =
      .ran (.error (.errorNodeModuleNb 11 10)) ∧
    ERROR_NODE_MODULE_NB_TXT 11 10 =
      "\nToo many node modules installed, 11/10 did you add some ?\n" := by
  refine ⟨fun pkg nbMax h => ?_, by decide, rfl⟩
  simp [checkNbOfNodeModulesDeps, truthyN, h]

/-- Witness for C7: an empty manifest against maximum 3 runs the check and
reports 0 of 3 informationally. -/
theorem C7_nb_deps_witness :
    checkNbOfNodeModulesDeps (some 3) ⟨none, none⟩ = .ran (.info (.infoNodeModuleNb 0 3)) := by
  simpa using C7_nb_deps.1 ⟨none, none⟩ 3 (by norm_num)

/-- C2: the running maximum is a monotonic ratchet: every tick leaves the
stored maximum no smaller; on every tick that completes (does not hit the
fatal exit) the maximum and its timestamp are updated if and only if the
sampled value exceeds the stored maximum; and for the successive tick samples
50, 200, 80, 300, 100 MB the final maximum is 300, with the timestamp of the
tick producing 300. -/
theorem C2_ratchet (W E : ℚ) (infos : MonitorInfos) (rssBytes : ℚ) (now : ℕ) :
    infos.tmpMaxMemoryConsumption ≤
      (checkMemoryUsageTick W E infos rssBytes now).infos.tmpMaxMemoryConsumption ∧
    (¬ toMB rssBytes > E →
      (toMB rssBytes > infos.tmpMaxMemoryConsumption →
        (checkMemoryUsageTick W E infos rssBytes now).infos = ⟨toMB rssBytes, now⟩) ∧
      (¬ toMB rssBytes > infos.tmpMaxMemoryConsumption →
        (checkMemoryUsageTick W E infos rssBytes now).infos = infos)) ∧
    runTicks 2950 4500 (initialInfos 0)
      [(0, 50000000), (1, 200000000), (2, 80000000), (3, 300000000), (4, 100000000)] =
      ⟨300, 3⟩ := by
  refine ⟨?_, fun hE => ⟨fun hgt => ?_, fun hle => ?_⟩, ?_⟩
  · by_cases h1 : toMB rssBytes > E
    · simp [checkMemoryUsageTick, h1]
    · by_cases h2 : toMB rssBytes > infos.tmpMaxMemoryConsumption
      · simp [checkMemoryUsageTick, h1, h2]
        exact le_of_lt h2
      · simp [checkMemoryUsageTick, h1, h2]
  · simp [checkMemoryUsageTick, hE, hgt]
  · simp [checkMemoryUsageTick, hE, hle]
  · have h50 := toMB_mb 50
    have h200 := toMB_mb 200
    have h80 := toMB_mb 80
    have h300 := toMB_mb 300
    have h100 := toMB_mb 100
    norm_num at h50 h200 h80 h300 h100
    norm_num [runTicks, checkMemoryUsageTick, initialInfos, h50, h200, h80, h300, h100]

/-- Witness for C2: a first tick sampling 50 MB (rss 50000000 bytes) under the
default thresholds ratchets the stored maximum from 0 to 50 at that tick's
timestamp. -/
theorem C2_ratchet_witness :
    (checkMemoryUsageTick 2950 4500 (initialInfos 0) 50000000 0).infos = ⟨50, 0⟩ := by
  have h : toMB 50000000 = 50 := by
    have := toMB_mb 50
    norm_num at this
    exact this
  have h2 := ((C2_ratchet 2950 4500 (initialInfos 0) 50000000 0).2.1
    (by rw [h]; norm_num)).1 (by rw [h]; norm_num [initialInfos])
  rw [h] at h2
  exact h2

/-- C3: fatal path: any tick whose sample (in MB) exceeds the fatal threshold
emits the fatal classification carrying the sample, the limit and the time,
and invokes the process-exit primitive with code 1; the exit code is never 0;
a tick whose sample does not exceed the fatal threshold never invokes process
exit; and no step of the `monitoring` setup sequence ever exits. -/
theorem C3_fatal (W E : ℚ) (infos : MonitorInfos) (rssBytes : ℚ) (now : ℕ) :
    (toMB rssBytes > E →
      (checkMemoryUsageTick W E infos rssBytes now).exitCode = some 1 ∧
      (checkMemoryUsageTick W E infos rssBytes now).errorEvent =
        some (.errorMemoryConsumption (toMB rssBytes) E now)) ∧
    (¬ toMB rssBytes > E → (checkMemoryUsageTick W E infos rssBytes now).exitCode = none) ∧
    (checkMemoryUsageTick W E infos rssBytes now).exitCode ≠ some 0 ∧
    (∀ (opts : MonitoringOptions) (pkg : PackageJson) (c : ℕ),
      StartEvent.processExit c ∉ monitoring opts pkg) := by
  refine ⟨fun h => ?_, fun h => ?_, ?_, ?_⟩
  · simp [checkMemoryUsageTick, h]
  · simp [checkMemoryUsageTick, h]
  · by_cases h : toMB rssBytes > E
    · simp [checkMemoryUsageTick, h]
    · simp [checkMemoryUsageTick, h]
  · intro opts pkg c
    by_cases h : opts.MEMORY_WARNING_MAX_SIZE.getD 2950 > opts.MEMORY_ERROR_MAX_SIZE.getD 4500
    · simp [monitoring, h]
    · simp [monitoring, h]

/-- Witness for C3: the spec's fatal scenario, a 1500 MB sample against fatal
threshold 1000, exits with code 1 and carries sample and limit; a 150 MB
sample against fatal threshold 1500 does not exit. -/
theorem C3_fatal_witness :
    (checkMemoryUsageTick 100 1000 (initialInfos 0) 1500000000 7).exitCode = some 1 ∧
    (checkMemoryUsageTick 100 1000 (initialInfos 0) 1500000000 7).errorEvent =
      some (.errorMemoryConsumption 1500 1000 7) ∧
    (checkMemoryUsageTick 100 1500 (initialInfos 0) 150000000 7).exitCode = none := by
  have h1500 : toMB 1500000000 = 1500 := by
    have := toMB_mb 1500
    norm_num at this
    exact this
  have h150 : toMB 150000000 = 150 := by
    have := toMB_mb 150
    norm_num at this
    exact this
  have ha := (C3_fatal 100 1000 (initialInfos 0) 1500000000 7).1 (by rw [h1500]; norm_num)
  have hb := (C3_fatal 100 1500 (initialInfos 0) 150000000 7).2.1 (by rw [h150]; norm_num)
  rw [h1500] at ha
  exact ⟨ha.1, ha.2, hb⟩

/-- C10: on a fatal tick the monitor state is unchanged: the process exit comes
before the running-maximum update step, so the stored maximum and timestamp
keep their prior values — the aborting sample is never recorded. -/
theorem C10_fatal_state (W E : ℚ) (infos : MonitorInfos) (rssBytes : ℚ) (now : ℕ)
    (h : toMB rssBytes > E) :
    (checkMemoryUsageTick W E infos rssBytes now).infos = infos ∧
    (checkMemoryUsageTick W E infos rssBytes now).exitCode = some 1 := by
  simp [checkMemoryUsageTick, h]

/-- Witness for C10: the fatal 1500 MB sample leaves the fresh monitor state
untouched (maximum still 0) even though 1500 exceeds the stored maximum. -/
theorem C10_fatal_state_witness :
    (checkMemoryUsageTick 100 1000 (initialInfos 0) 1500000000 7).infos = initialInfos 0 ∧
    (checkMemoryUsageTick 100 1000 (initialInfos 0) 1500000000 7).exitCode = some 1 := by
  refine C10_fatal_state 100 1000 (initialInfos 0) 1500000000 7 ?_
  have := toMB_mb 1500
  norm_num at this
  rw [this]
  norm_num

/-- C6: misconfiguration is non-fatal: whenever the (defaulted) warning
threshold exceeds the fatal threshold, `monitoring` emits the misconfiguration
error and still proceeds: the memory monitor is started, the dependency-count
check runs, and no process exit occurs. -/
theorem C6_misconfig (opts : MonitoringOptions) (pkg : PackageJson)
    (h : opts.MEMORY_WARNING_MAX_SIZE.getD 2950 > opts.MEMORY_ERROR_MAX_SIZE.getD 4500) :
    monitoring opts pkg =
      [.emit (.error .warningAboveError),
       .startMemoryMonitor (opts.MEMORY_WARNING_MAX_SIZE.getD 2950)
         (opts.MEMORY_ERROR_MAX_SIZE.getD 4500) (opts.INTERVAL_CHECK_MEMORY.getD 350),
       .runDepsCheck (checkNbOfNodeModulesDeps opts.NB_NODE_MODULES_MAX pkg)] ∧
    (∀ c : ℕ, StartEvent.processExit c ∉ monitoring opts pkg) := by
  constructor
  · simp [monitoring, h]
  · intro c
    simp [monitoring, h]

/-- Witness for C6: warning threshold 5000 against the default fatal threshold
4500 reports the misconfiguration and still starts the monitor and runs the
dependency-count check. -/
theorem C6_misconfig_witness :
    monitoring { MEMORY_WARNING_MAX_SIZE := some 5000 } ⟨none, none⟩ =
      [.emit (.error .warningAboveError),
       .startMemoryMonitor 5000 4500 350,
       .runDepsCheck .skipped] := by
  have h := (C6_misconfig { MEMORY_WARNING_MAX_SIZE := some 5000 } ⟨none, none⟩
    (by norm_num)).1
  simpa [checkNbOfNodeModulesDeps, truthyN] using h

/-- C8: completion-sequence ordering: `finalCallback` cancels the monitor's
repeating timer as its very first step, and the final running maximum and its
timestamp are read and reported only afterwards (second step); the timer
cancellation occurs nowhere later in the sequence. -/
theorem C8_ordering (path : String) (bMax nmMax : Option ℚ) (infos : MonitorInfos)
    (bundleBytes nodeModulesBytes : ℚ) :
    (finalCallback path bMax nmMax infos bundleBytes nodeModulesBytes)[0]? =
      some .clearMonitorInterval ∧
    (finalCallback path bMax nmMax infos bundleBytes nodeModulesBytes)[1]? =
      some (.emit (.info (.memoryConsumption infos.tmpMaxMemoryConsumption
        infos.dateMaxMemoryConsumption))) ∧
    (∀ i, (finalCallback path bMax nmMax infos bundleBytes nodeModulesBytes)[i]? =
      some .clearMonitorInterval → i = 0) := by
  refine ⟨rfl, rfl, ?_⟩
  intro i h
  rcases i with _ | _ | _ | _ | _ | _ | i
  · rfl
  all_goals simp [finalCallback] at h

/-- Witness for C8: at a concrete completed run (maximum 300 at time 3) the
cancel step precedes the report of 300 at time 3. -/
theorem C8_ordering_witness :
    (finalCallback "./public/build" none none ⟨300, 3⟩ 0 0)[0]? =
      some .clearMonitorInterval ∧
    (finalCallback "./public/build" none none ⟨300, 3⟩ 0 0)[1]? =
      some (.emit (.info (.memoryConsumption 300 3))) :=
  ⟨(C8_ordering "./public/build" none none ⟨300, 3⟩ 0 0).1,
   (C8_ordering "./public/build" none none ⟨300, 3⟩ 0 0).2.1⟩

/-- The first call of a burst from the fresh closure takes the leading edge:
it invokes immediately and schedules the timer `wait` later. -/
theorem debouncedCall_init (w t : ℕ) (a : ℚ × ℚ) :
    debouncedCall w debounceInit t a =
      (⟨some t, t, none, some (t + w)⟩, [(t, a)]) := by
  simp [debouncedCall, debounceInit, shouldInvoke]

/-- A mid-burst call (less than `wait` after the previous call) emits nothing —
neither the due-timer firing nor the call itself invokes — and re-establishes
the burst invariant with the new call time and arguments. -/
theorem burst_step (w t0 tk t : ℕ) (ak : Option (ℚ × ℚ)) (s : DebounceState) (a : ℚ × ℚ)
    (hs : BurstInv w t0 tk ak s) (h1 : tk < t) (h2 : t < tk + w) :
    (fireDue w s t).2 = [] ∧ (debouncedCall w (fireDue w s t).1 t a).2 = [] ∧
    BurstInv w t0 t (some a) (debouncedCall w (fireDue w s t).1 t a).1 := by
  obtain ⟨hc, hi, ha, T, hT, hT1, hT2⟩ := hs
  have hsum : s = ⟨some tk, t0, ak, some T⟩ := by
    cases s
    simp_all
  subst hsum
  have hni2 : ¬ w ≤ t - tk := by omega
  have hnd : ¬ tk + w ≤ t := by omega
  by_cases hTt : T ≤ t
  · have hni : ¬ w ≤ T - tk := by omega
    simp [fireDue, timerExpired, shouldInvoke, debouncedCall, BurstInv, hTt, hni, hni2, hnd]
    omega
  · simp [fireDue, timerExpired, shouldInvoke, debouncedCall, BurstInv, hTt, hni2]
    omega

/-- Processing the remainder of a burst from a mid-burst state emits nothing
and ends in the burst invariant at the last call of the burst. -/
theorem runDebounce_burst (w t0 : ℕ) (rest : List (ℕ × (ℚ × ℚ))) :
    ∀ (tk : ℕ) (ak : Option (ℚ × ℚ)) (s : DebounceState),
      BurstInv w t0 tk ak s → BurstTimes w tk rest →
      (runDebounce w s rest).2 = [] ∧
      (match rest.getLast? with
       | none => BurstInv w t0 tk ak (runDebounce w s rest).1
       | some q => BurstInv w t0 q.1 (some q.2) (runDebounce w s rest).1) := by
  induction rest with
  | nil =>
    intro tk ak s hs _
    exact ⟨rfl, hs⟩
  | cons p rest ih =>
    obtain ⟨pt, pa⟩ := p
    intro tk ak s hs hb
    obtain ⟨hb1, hb2, hb3⟩ := hb
    obtain ⟨he1, he2, hinv⟩ := burst_step w t0 tk pt ak s pa hs hb1 hb2
    have hr := ih pt (some pa) _ hinv hb3
    constructor
    · simp only [runDebounce]
      rw [he1, he2, hr.1]
      rfl
    · cases rest with
      | nil =>
        simpa only [runDebounce, List.getLast?] using hr.2
      | cons q rest2 =>
        rw [List.getLast?_cons_cons]
        simpa only [runDebounce] using hr.2

/-- Flushing the timers from a mid-burst state with pending arguments produces
exactly the trailing invocation, `wait` after the burst's last call. -/
theorem flush_burst (w t0 tn : ℕ) (an : ℚ × ℚ) (s : DebounceState)
    (hs : BurstInv w t0 tn (some an) s) :
    (flushTimers w s).2 = [(tn + w, an)] := by
  obtain ⟨hc, hi, ha, T, hT, hT1, hT2⟩ := hs
  have hsum : s = ⟨some tn, t0, some an, some T⟩ := by
    cases s
    simp_all
  subst hsum
  have htr : w ≤ (tn + w) - tn := by omega
  by_cases hTe : T = tn + w
  · subst hTe
    simp [flushTimers, timerExpired, shouldInvoke, htr]
  · have hlt : ¬ w ≤ T - tn := by omega
    simp [flushTimers, timerExpired, shouldInvoke, hlt, htr]

/-- A whole burst (first call from the fresh closure, then calls with gaps
shorter than `wait`, at least two calls in total) produces exactly two
invocations: the leading one at the first call with the first arguments, and
the trailing one `wait` after the last call with the last arguments. -/
theorem runBurst_burst (w : ℕ) (hw : 0 < w) (t0 : ℕ) (a0 : ℚ × ℚ)
    (rest : List (ℕ × (ℚ × ℚ))) (hrest : rest ≠ []) (hb : BurstTimes w t0 rest) :
    runBurst w ((t0, a0) :: rest) =
      [(t0, a0), ((rest.getLastD (t0, a0)).1 + w, (rest.getLastD (t0, a0)).2)] := by
  have hinv0 : BurstInv w t0 t0 none (⟨some t0, t0, none, some (t0 + w)⟩ : DebounceState) :=
    ⟨rfl, rfl, rfl, t0 + w, rfl, by omega, le_refl _⟩
  have hr := runDebounce_burst w t0 rest t0 none _ hinv0 hb
  obtain ⟨q, hq⟩ : ∃ q, rest.getLast? = some q := by
    rw [← Option.isSome_iff_exists]
    exact List.getLast?_isSome.mpr hrest
  rw [hq] at hr
  have hflush := flush_burst w t0 q.1 q.2 _ hr.2
  have hlast : rest.getLastD (t0, a0) = q := by
    rw [List.getLastD_eq_getLast? (t0, a0) rest, hq]
    rfl
  rw [hlast]
  simp only [runBurst, runDebounce]
  rw [show fireDue w debounceInit t0 = (debounceInit, []) from rfl, debouncedCall_init]
  simp [hr.1, hflush]

/-- Predicate `BurstTimes` only constrains the timestamps, so it transports along any
map preserving the first component. -/
theorem burstTimes_map (w : ℕ) (g : ℚ → ℚ × ℚ) :
    ∀ (t : ℕ) (l : List (ℕ × ℚ)), BurstTimes w t l →
      BurstTimes w t (l.map fun p => (p.1, g p.2)) := by
  intro t l
  induction l generalizing t with
  | nil => intro h; exact h
  | cons p rest ih =>
    rintro ⟨h1, h2, h3⟩
    exact ⟨h1, h2, ih p.1 h3⟩

/-- Helper: `getLastD` commutes with a map preserving the first component. -/
theorem getLastD_map_fst (g : ℚ → ℚ × ℚ) :
    ∀ (l : List (ℕ × ℚ)) (d : ℕ × ℚ),
      (l.map fun p => (p.1, g p.2)).getLastD (d.1, g d.2) =
        ((l.getLastD d).1, g (l.getLastD d).2) := by
  intro l
  induction l with
  | nil => intro d; rfl
  | cons p rest ih =>
    intro d
    rw [List.map_cons, List.getLastD_cons, List.getLastD_cons]
    exact ih p

/-- C4: warning coalescing: along a run of consecutive ticks whose samples all
exceed the warning threshold but not the fatal one, every tick calls the
debounced `warningMemoryLimit`; if the run's consecutive gaps are shorter than
the 2500 ms coalescing window and the run lasts longer than the window, the
debounced wrapper emits exactly two notifications for the whole run: the
leading one at the first tick with the first sample, and the trailing one 2500
ms after the last tick with the last sample — not one per tick. -/
theorem C4_coalescing (W E : ℚ) (first : ℕ × ℚ) (rest : List (ℕ × ℚ))
    (hmem : ∀ p ∈ first :: rest, toMB p.2 > W ∧ ¬ toMB p.2 > E)
    (hb : BurstTimes warningMemoryLimitWait first.1 rest)
    (hdur : warningMemoryLimitWait < (rest.getLastD first).1 - first.1) :
    (∀ p ∈ first :: rest, ∀ infos : MonitorInfos,
      (checkMemoryUsageTick W E infos p.2 p.1).warnCall = some (toMB p.2, W)) ∧
    runBurst warningMemoryLimitWait
        ((first :: rest).map fun p => (p.1, (toMB p.2, W))) =
      [(first.1, (toMB first.2, W)),
       ((rest.getLastD first).1 + warningMemoryLimitWait,
        (toMB (rest.getLastD first).2, W))] := by
  constructor
  · intro p hp infos
    obtain ⟨h1, h2⟩ := hmem p hp
    simp [checkMemoryUsageTick, h1, h2]
  · have hrest : rest ≠ [] := by
      intro h
      subst h
      simp [List.getLastD] at hdur
    obtain ⟨ft, fr⟩ := first
    have hmap := runBurst_burst warningMemoryLimitWait (by norm_num [warningMemoryLimitWait])
      ft (toMB fr, W) (rest.map fun p => (p.1, (toMB p.2, W)))
      (by simpa using hrest)
      (burstTimes_map warningMemoryLimitWait (fun r => (toMB r, W)) ft rest hb)
    simp only [List.map_cons]
    rw [hmap, getLastD_map_fst (fun r => (toMB r, W)) rest (ft, fr)]

/-- Witness for C4: nine ticks every 350 ms (spanning 2800 ms > 2500 ms), all
sampling 150 MB against warning threshold 100 and fatal threshold 1500,
produce exactly the leading notification at time 0 and the trailing one at
time 2800 + 2500 = 5300, both carrying 150 MB and the 100 MB limit. -/
theorem C4_coalescing_witness :
    runBurst warningMemoryLimitWait
        (([((0 : ℕ), (150000000 : ℚ)), (350, 150000000), (700, 150000000), (1050, 150000000),
           (1400, 150000000), (1750, 150000000), (2100, 150000000), (2450, 150000000),
           (2800, 150000000)]).map fun p => (p.1, (toMB p.2, (100 : ℚ)))) =
      [(0, (150, 100)), (5300, (150, 100))] := by
  have h150 : toMB 150000000 = 150 := by
    have := toMB_mb 150
    norm_num at this
    exact this
  have h := (C4_coalescing 100 1500 (0, 150000000)
      [(350, 150000000), (700, 150000000), (1050, 150000000), (1400, 150000000),
       (1750, 150000000), (2100, 150000000), (2450, 150000000), (2800, 150000000)]
      (by
        intro p hp
        simp at hp
        rcases hp with rfl | rfl | rfl | rfl | rfl | rfl | rfl | rfl | rfl <;>
          norm_num [h150])
      (by norm_num [BurstTimes, warningMemoryLimitWait])
      (by norm_num [List.getLastD, warningMemoryLimitWait])).2
  norm_num [List.getLastD, h150, warningMemoryLimitWait] at h
  norm_num [h150]
  exact h

end BuildMonitoring
